import Mathlib

/-!
# Shallow embedding of `flip_logic.py` (flip-house-evaluator)

Python floats are modelled by exact rationals `ℚ`; the float `nan` produced by the
guarded divisions is modelled by `none` in an `Option ℚ`; pandas "missing" cells
(NaN) are modelled by `Option`; the `ValueError`s raised by the loader and the
row picker are modelled by `Except FlipError`.
-/

namespace FlipLogic

/-- Errors raised by the loader and the resolvers.  The source raises Python
`ValueError` in every case; `dataFormat` is the explicit check at line 33
(`df.shape[1] < 23`), `localityNotFound` is `_pick_row`'s error, and
`lengthMismatch` is the pandas `ValueError: Length mismatch` that the assignment
`df2.columns = [...23 names...]` (line 37) raises whenever the frame's column
count differs from 23 (only reachable for counts above 23, the smaller counts
having already been rejected). -/
inductive FlipError where
  | dataFormat
  | lengthMismatch
  | localityNotFound
  deriving DecidableEq, Repr

/-- A spreadsheet cell as pandas sees it: `num q` is a numeric value (text that
`pd.to_numeric` successfully parses as a number is also represented as `num`),
`str s` is non-numeric text, `empty` is a missing cell / NaN. -/
inductive Cell where
  | num (q : ℚ)
  | str (s : String)
  | empty
  deriving DecidableEq, Repr

/-- `pd.to_numeric(..., errors="coerce")` applied to one cell: numeric values
survive, everything else coerces to missing. -/
def Cell.toNumeric : Cell → Option ℚ
  | .num q => some q
  | .str _ => none
  | .empty => none

/-- `pd.notna` on one cell. -/
def Cell.notna : Cell → Bool
  | .empty => false
  | _ => true

/-- `.astype(str)` on one cell (pandas renders a missing value as "nan"; this
branch is unreachable for retained rows, whose locality cell is not missing). -/
def Cell.asString : Cell → String
  | .num q => toString q
  | .str s => s
  | .empty => "nan"

/-- One retained row of the normalized dataframe produced by `load_market_data`.
`Preco_m2_Total` is unconditionally present (rows failing its numeric coercion
are dropped); every other numeric column is optional.  Columns that are never
read again after the load (`Regiao`, the `Fogos_*` counts, `Preco_Fogo_Total`
and the placeholder columns) are omitted from the record. -/
structure Row where
  localidade : String
  preco_m2_total : ℚ
  preco_m2_t1 : Option ℚ
  preco_m2_t2 : Option ℚ
  preco_m2_t3 : Option ℚ
  preco_m2_moradia : Option ℚ
  absorcao_total : Option ℚ
  absorcao_t1 : Option ℚ
  absorcao_t2 : Option ℚ
  absorcao_t3 : Option ℚ
  absorcao_moradia : Option ℚ
  deriving DecidableEq, Repr

/-- Python `str.strip`: drop leading and trailing whitespace. -/
def strip (s : String) : String :=
  String.mk (((s.data.dropWhile Char.isWhitespace).reverse.dropWhile
    Char.isWhitespace).reverse)

/-- The per-row part of `load_market_data` (lines 45-56), positional over the
23-column layout of line 37 (0-based indices: 1 = `Localidade`, 8 = `Preco_m2_Total`,
9-12 = per-typology prices, 18-22 = absorption columns): a row is kept iff its
locality cell is non-missing and its overall price-per-area coerces to a number;
the other numeric columns coerce with failures becoming missing, and the
locality is stringified and stripped of surrounding whitespace. -/
def processRow (r : List Cell) : Option Row :=
  let loc := r.getD 1 .empty
  if loc.notna then
    match (r.getD 8 .empty).toNumeric with
    | some p =>
        some { localidade := strip loc.asString
               preco_m2_total := p
               preco_m2_t1 := (r.getD 9 .empty).toNumeric
               preco_m2_t2 := (r.getD 10 .empty).toNumeric
               preco_m2_t3 := (r.getD 11 .empty).toNumeric
               preco_m2_moradia := (r.getD 12 .empty).toNumeric
               absorcao_total := (r.getD 18 .empty).toNumeric
               absorcao_t1 := (r.getD 19 .empty).toNumeric
               absorcao_t2 := (r.getD 20 .empty).toNumeric
               absorcao_t3 := (r.getD 21 .empty).toNumeric
               absorcao_moradia := (r.getD 22 .empty).toNumeric }
    | none => none
  else none

/-- The raw table handed to the loader: a column count (`df.shape[1]`) and the
rows of cells. -/
structure DataFrame where
  ncols : Nat
  rows : List (List Cell)
  deriving Repr

/-- `load_market_data` (lines 23-59).  The explicit structural check rejects
fewer than 23 columns; assigning the fixed 23-name layout (line 37) then fails
for any other column count different from 23 (pandas length-mismatch), so only
frames with exactly 23 columns are actually loaded. -/
def load_market_data (df : DataFrame) : Except FlipError (List Row) :=
  if df.ncols < 23 then .error .dataFormat
  else if df.ncols = 23 then .ok (df.rows.filterMap processRow)
  else .error .lengthMismatch

/-- Python `str.casefold`, restricted to the ASCII case mapping, which is all
the case structure the locality comparisons exercise: lowercase every
character. -/
def caseFold (s : String) : String := String.mk (s.data.map Char.toLower)

/-- `_pick_row` (lines 61-65): first row whose casefolded locality matches,
else a `LocalityNotFoundError`. -/
def pickRow (rows : List Row) (localidade : String) : Except FlipError Row :=
  match rows.find? (fun r => caseFold r.localidade == caseFold localidade) with
  | some r => .ok r
  | none => .error .localityNotFound

/-- `RENOVATION_COSTS` (lines 9-13), €/m² per renovation tier. -/
def RENOVATION_COSTS (level : String) : Option ℚ :=
  if level = "Baixo" then some 300
  else if level = "Médio" then some 600
  else if level = "Alto" then some 900
  else none

/-- `RENOVATION_COSTS.get(obra_level, RENOVATION_COSTS["Médio"])` (line 115). -/
def renovationCost (obra_level : String) : ℚ :=
  (RENOVATION_COSTS obra_level).getD ((RENOVATION_COSTS "Médio").getD 0)

/-- `TIPOLOGY_MAP` (lines 15-21): typology → reference bucket. -/
def TIPOLOGY_MAP (t : String) : Option String :=
  if t = "T0" then some "T1"
  else if t = "T1" then some "T1"
  else if t = "T2" then some "T2"
  else if t = "T3" then some "T3"
  else if t = "T4+" then some "T3"
  else none

/-- The body of `get_sale_price_per_m2` after the row is picked (lines 70-84).
The source's three sequential early-return `if` blocks are encoded as an
`orElse` chain: at most one of them can fire because the mapped bucket `t` is a
single string, and a bucket hit with a missing value falls through to the
overall fallback. -/
def salePriceFromRow (row : Row) (tipologia : String) : ℚ × String :=
  let t := (TIPOLOGY_MAP tipologia).getD "Total"
  let tryT1 : Option (ℚ × String) :=
    if t = "T1" then row.preco_m2_t1.map (fun v => (v, "Apt. T1 (ou inf.)")) else none
  let tryT2 : Option (ℚ × String) :=
    if t = "T2" then row.preco_m2_t2.map (fun v => (v, "Apt. T2")) else none
  let tryT3 : Option (ℚ × String) :=
    if t = "T3" then row.preco_m2_t3.map (fun v => (v, "Apt. T3 (proxy p/ T4+)")) else none
  (((tryT1.orElse fun _ => tryT2).orElse fun _ => tryT3).getD
    (row.preco_m2_total, "Total (fallback)"))

/-- `get_sale_price_per_m2` (lines 67-84). -/
def get_sale_price_per_m2 (rows : List Row) (localidade tipologia : String) :
    Except FlipError (ℚ × String) :=
  (pickRow rows localidade).map (fun row => salePriceFromRow row tipologia)

/-- The `col_map` of `estimate_absorption_months` (line 89) combined with
`col_map.get(t, None)`. -/
def absorcaoColMap (t : String) : Option String :=
  if t = "T1" then some "Absorcao_T1"
  else if t = "T2" then some "Absorcao_T2"
  else if t = "T3" then some "Absorcao_T3"
  else none

/-- `row.get(col)` for the absorption columns. -/
def Row.getAbsorcao (row : Row) (col : String) : Option ℚ :=
  if col = "Absorcao_T1" then row.absorcao_t1
  else if col = "Absorcao_T2" then row.absorcao_t2
  else if col = "Absorcao_T3" then row.absorcao_t3
  else if col = "Absorcao_Total" then row.absorcao_total
  else none

/-- Lines 93-95 of `estimate_absorption_months`: overall absorption if present,
else the fixed 6-month default. -/
def absorptionFallback (row : Row) : ℚ × String :=
  match row.absorcao_total with
  | some v => (v, "Absorcao_Total (fallback)")
  | none => (6, "Default 6 (sem dados)")

/-- The body of `estimate_absorption_months` after the row is picked
(lines 88-95); on a column hit the label is the column name itself
(`f"{col}"`). -/
def absorptionFromRow (row : Row) (tipologia : String) : ℚ × String :=
  let t := (TIPOLOGY_MAP tipologia).getD "Total"
  match absorcaoColMap t with
  | some col =>
      match row.getAbsorcao col with
      | some v => (v, col)
      | none => absorptionFallback row
  | none => absorptionFallback row

/-- `estimate_absorption_months` (lines 86-95). -/
def estimate_absorption_months (rows : List Row) (localidade tipologia : String) :
    Except FlipError (ℚ × String) :=
  (pickRow rows localidade).map (fun row => absorptionFromRow row tipologia)

/-- The record returned by `calc_business_case` (lines 131-147).  The two
guarded ratios carry `Option ℚ`, `none` standing for the float `nan` the source
produces when the corresponding denominator is not positive. -/
structure BusinessCase where
  compra : ℚ
  area_m2 : ℚ
  venda_m2 : ℚ
  venda_bruta : ℚ
  venda_prudente : ℚ
  obra_base : ℚ
  obra_total : ℚ
  aquisicao : ℚ
  holding : ℚ
  investimento_total : ℚ
  venda_fee : ℚ
  lucro_liquido : ℚ
  margem_liquida : Option ℚ
  roi : Option ℚ
  breakeven_venda : ℚ
  deriving DecidableEq, Repr

/-- `calc_business_case` (lines 97-147).  The source's `margem_alvo` and
`abs_meses` parameters are accepted but never read in the body, so they are
omitted here. -/
def calc_business_case (compra area_m2 venda_m2 : ℚ) (obra_level : String)
    (taxa_aquisicao taxa_venda taxa_holding contingencia_obra prudencia_venda : ℚ) :
    BusinessCase :=
  let venda_bruta := venda_m2 * area_m2
  let venda_prudente := venda_bruta * (1 + prudencia_venda)
  let base_cost := renovationCost obra_level
  let obra_base := base_cost * area_m2
  let obra_total := obra_base * (1 + contingencia_obra)
  let aquisicao := compra * taxa_aquisicao
  let holding := (compra + obra_total) * taxa_holding
  let investimento_total := compra + aquisicao + obra_total + holding
  let venda_fee := venda_prudente * taxa_venda
  let lucro_liquido := venda_prudente - (investimento_total + venda_fee)
  let margem_liquida := if 0 < venda_prudente then some (lucro_liquido / venda_prudente) else none
  let roi := if 0 < investimento_total then some (lucro_liquido / investimento_total) else none
  let breakeven_venda := investimento_total / max (1 - taxa_venda) (1 / 1000000000)
  { compra := compra
    area_m2 := area_m2
    venda_m2 := venda_m2
    venda_bruta := venda_bruta
    venda_prudente := venda_prudente
    obra_base := obra_base
    obra_total := obra_total
    aquisicao := aquisicao
    holding := holding
    investimento_total := investimento_total
    venda_fee := venda_fee
    lucro_liquido := lucro_liquido
    margem_liquida := margem_liquida
    roi := roi
    breakeven_venda := breakeven_venda }

/-- `calc_optimal_purchase_price` (lines 149-174): closed-form maximum purchase
price achieving the target margin, clamped to 0, with the division skipped when
the denominator is not positive. -/
def calc_optimal_purchase_price
    (venda_prudente obra_total taxa_aquisicao taxa_holding taxa_venda margem_alvo : ℚ) : ℚ :=
  let denom := 1 + taxa_aquisicao + taxa_holding
  let rhs := venda_prudente * (1 - taxa_venda - margem_alvo) - obra_total * (1 + taxa_holding)
  let P := if 0 < denom then rhs / denom else 0
  max 0 P

/-- One entry of the list returned by `stress_test_cases`: scenario name,
profit, and margin (`none` models the float `nan`). -/
structure StressScenario where
  nome : String
  lucro : ℚ
  margem : Option ℚ
  deriving DecidableEq, Repr

/-- `stress_test_cases` (lines 176-226): re-derives the effective rates from
the business-case record (each guarded to 0 when its denominator is not
positive) and recomputes profit/margin for the four fixed scenarios.  The
Python guard `abs_meses if (abs_meses and abs_meses > 0) else 6.0` reduces, for
a float argument, to `abs_meses if abs_meses > 0 else 6.0` (both 0 itself and
any non-positive value fail the combined condition). -/
def stress_test_cases (bc : BusinessCase) (abs_meses : ℚ) : List StressScenario :=
  let base_V := bc.venda_prudente
  let base_W := bc.obra_total
  let base_P := bc.compra
  let taxa_venda := if 0 < base_V then bc.venda_fee / base_V else 0
  let taxa_aquisicao := if 0 < base_P then bc.aquisicao / base_P else 0
  let denom_hw := base_P + base_W
  let taxa_holding := if 0 < denom_hw then bc.holding / denom_hw else 0
  let meses := if 0 < abs_meses then abs_meses else 6
  let recompute : ℚ → ℚ → ℚ → ℚ × Option ℚ := fun V W meses_scale =>
    let aq := base_P * taxa_aquisicao
    let hold := (base_P + W) * taxa_holding * meses_scale
    let inv := base_P + aq + W + hold
    let fee := V * taxa_venda
    let lucro := V - (inv + fee)
    let margem := if 0 < V then some (lucro / V) else none
    (lucro, margem)
  let base := recompute base_V base_W 1
  let s1 := recompute (base_V * (95 / 100)) base_W 1
  let s2 := recompute base_V (base_W * (110 / 100)) 1
  let scale := if 0 < meses then (meses + 3) / meses else 3 / 2
  let s3 := recompute base_V base_W scale
  [⟨"Base", base.1, base.2⟩,
   ⟨"Venda -5%", s1.1, s1.2⟩,
   ⟨"Obra +10%", s2.1, s2.2⟩,
   ⟨"Atraso +3 meses", s3.1, s3.2⟩]

/-- A fully populated example row, used by concrete witnesses. -/
def rowFull : Row :=
  ⟨"Lisboa", 3000, some 3100, some 3200, some 3300, some 3500,
   some 4, some 3, some 5, some 7, some 8⟩

/-- An example row whose `t2` price column is absent. -/
def rowNoT2 : Row :=
  ⟨"Porto", 2500, some 2600, none, some 2800, none, some 5, none, none, none, none⟩

/-- An example row with every absorption column absent. -/
def rowEmptyAbs : Row :=
  ⟨"Faro", 2000, none, none, some 2100, none, none, none, none, none, none⟩

end FlipLogic

namespace FlipLogic

/-! ## Unfolding helpers (all definitional) -/

lemma opt_price_def (V W a h s m : ℚ) :
    calc_optimal_purchase_price V W a h s m =
      max 0 (if 0 < 1 + a + h then (V * (1 - s - m) - W * (1 + h)) / (1 + a + h) else 0) := rfl

lemma bc_compra (c A vm : ℚ) (lvl : String) (a s h ct pr : ℚ) :
    (calc_business_case c A vm lvl a s h ct pr).compra = c := rfl

lemma bc_venda_bruta (c A vm : ℚ) (lvl : String) (a s h ct pr : ℚ) :
    (calc_business_case c A vm lvl a s h ct pr).venda_bruta = vm * A := rfl

lemma bc_venda_prudente (c A vm : ℚ) (lvl : String) (a s h ct pr : ℚ) :
    (calc_business_case c A vm lvl a s h ct pr).venda_prudente = vm * A * (1 + pr) := rfl

lemma bc_obra_total (c A vm : ℚ) (lvl : String) (a s h ct pr : ℚ) :
    (calc_business_case c A vm lvl a s h ct pr).obra_total =
      renovationCost lvl * A * (1 + ct) := rfl

lemma bc_aquisicao (c A vm : ℚ) (lvl : String) (a s h ct pr : ℚ) :
    (calc_business_case c A vm lvl a s h ct pr).aquisicao = c * a := rfl

lemma bc_holding (c A vm : ℚ) (lvl : String) (a s h ct pr : ℚ) :
    (calc_business_case c A vm lvl a s h ct pr).holding =
      (c + renovationCost lvl * A * (1 + ct)) * h := rfl

lemma renovationCost_medio : renovationCost "Médio" = 600 := rfl

lemma renovationCost_baixo : renovationCost "Baixo" = 300 := rfl

lemma bc_investimento_total (c A vm : ℚ) (lvl : String) (a s h ct pr : ℚ) :
    (calc_business_case c A vm lvl a s h ct pr).investimento_total =
      c + c * a + renovationCost lvl * A * (1 + ct) +
        (c + renovationCost lvl * A * (1 + ct)) * h := rfl

lemma bc_venda_fee (c A vm : ℚ) (lvl : String) (a s h ct pr : ℚ) :
    (calc_business_case c A vm lvl a s h ct pr).venda_fee = vm * A * (1 + pr) * s := rfl

lemma bc_lucro_liquido (c A vm : ℚ) (lvl : String) (a s h ct pr : ℚ) :
    (calc_business_case c A vm lvl a s h ct pr).lucro_liquido =
      vm * A * (1 + pr) -
        (c + c * a + renovationCost lvl * A * (1 + ct) +
          (c + renovationCost lvl * A * (1 + ct)) * h + vm * A * (1 + pr) * s) := rfl

lemma bc_margem_liquida (c A vm : ℚ) (lvl : String) (a s h ct pr : ℚ) :
    (calc_business_case c A vm lvl a s h ct pr).margem_liquida =
      if 0 < vm * A * (1 + pr) then
        some ((vm * A * (1 + pr) -
          (c + c * a + renovationCost lvl * A * (1 + ct) +
            (c + renovationCost lvl * A * (1 + ct)) * h + vm * A * (1 + pr) * s)) /
          (vm * A * (1 + pr)))
      else none := rfl

lemma stress_head_def (bc : BusinessCase) (am : ℚ) :
    (stress_test_cases bc am).head? = some
      ⟨"Base",
        bc.venda_prudente -
          ((bc.compra + bc.compra * (if 0 < bc.compra then bc.aquisicao / bc.compra else 0) +
              bc.obra_total +
              (bc.compra + bc.obra_total) *
                (if 0 < bc.compra + bc.obra_total then
                  bc.holding / (bc.compra + bc.obra_total) else 0) * 1) +
            bc.venda_prudente *
              (if 0 < bc.venda_prudente then bc.venda_fee / bc.venda_prudente else 0)),
        if 0 < bc.venda_prudente then
          some ((bc.venda_prudente -
            ((bc.compra + bc.compra * (if 0 < bc.compra then bc.aquisicao / bc.compra else 0) +
                bc.obra_total +
                (bc.compra + bc.obra_total) *
                  (if 0 < bc.compra + bc.obra_total then
                    bc.holding / (bc.compra + bc.obra_total) else 0) * 1) +
              bc.venda_prudente *
                (if 0 < bc.venda_prudente then bc.venda_fee / bc.venda_prudente else 0))) /
            bc.venda_prudente)
        else none⟩ := rfl

end FlipLogic

namespace FlipLogic

/-! ## Claim theorems -/

/-- C3 counterexample: a source with 24 columns passes the explicit `< 23`
structural check, yet `load_market_data` still fails — assigning the fixed
23-name layout to a 24-column frame raises a pandas length-mismatch error — so
a source with 23-or-more columns is not always "loaded without a structure
error" as the claim states. -/
theorem load_wide_frame_fails :
    load_market_data ⟨24, [List.replicate 24 Cell.empty]⟩ =
      Except.error FlipError.lengthMismatch := rfl

/-- C3 (amended): `load_market_data` raises `DataFormatError` exactly when the
source has fewer than 23 columns; a source with exactly 23 columns is loaded
without a structure error; a source with more than 23 columns fails with the
length-mismatch error at the positional renaming step. -/
theorem load_column_check (df : DataFrame) :
    (load_market_data df = Except.error FlipError.dataFormat ↔ df.ncols < 23) ∧
    (load_market_data df = Except.error FlipError.lengthMismatch ↔ 23 < df.ncols) ∧
    ((∃ out, load_market_data df = Except.ok out) ↔ df.ncols = 23) := by
  by_cases h1 : df.ncols < 23
  · simp [load_market_data, h1]
    omega
  · by_cases h2 : df.ncols = 23
    · simp [load_market_data, h1, h2]
    · simp [load_market_data, h1, h2]
      omega

/-- C4: `calc_optimal_purchase_price` always returns a value ≥ 0; it returns
exactly 0 whenever the unclamped closed-form solution is negative, and it
returns 0 whenever the denominator `1 + acquisition_rate + holding_rate` is
not positive. -/
theorem optimal_price_clamp (V W a h s m : ℚ) :
    0 ≤ calc_optimal_purchase_price V W a h s m ∧
    ((V * (1 - s - m) - W * (1 + h)) / (1 + a + h) < 0 →
      calc_optimal_purchase_price V W a h s m = 0) ∧
    (1 + a + h ≤ 0 → calc_optimal_purchase_price V W a h s m = 0) := by
  rw [opt_price_def]
  refine ⟨le_max_left 0 _, fun hneg => ?_, fun hle => ?_⟩
  · by_cases hd : 0 < 1 + a + h
    · rw [if_pos hd]
      exact max_eq_left hneg.le
    · rw [if_neg hd]
      simp
  · rw [if_neg (not_lt.mpr hle)]
    simp

/-- C4 witness: at `V = 100, W = 0, a = -3, h = s = m = 0` both side conditions
hold and the solver returns 0. -/
theorem optimal_price_clamp_witness :
    ((100 : ℚ) * (1 - 0 - 0) - 0 * (1 + 0)) / (1 + (-3) + 0) < 0 ∧
    (1 : ℚ) + (-3) + 0 ≤ 0 ∧
    0 ≤ calc_optimal_purchase_price 100 0 (-3) 0 0 0 ∧
    calc_optimal_purchase_price 100 0 (-3) 0 0 0 = 0 := by
  refine ⟨by norm_num, by norm_num, (optimal_price_clamp 100 0 (-3) 0 0 0).1,
    (optimal_price_clamp 100 0 (-3) 0 0 0).2.2 (by norm_num)⟩

/-- C9: the end-to-end example of the spec, over exact rationals: asking price
200000, 60 m², 2000 €/m², Medium renovation with 10% contingency, 8%
acquisition, 6.15% sale fee, 1.5% holding, -5% sale prudence.  All listed
fields match exactly and the net margin -152205/114000 is within 1e-4 of the
spec's rounded -1.3352. -/
theorem end_to_end_example :
    (calc_business_case 200000 60 2000 "Médio" (2/25) (123/2000) (3/200) (1/10)
      (-1/20)).venda_bruta = 120000 ∧
    (calc_business_case 200000 60 2000 "Médio" (2/25) (123/2000) (3/200) (1/10)
      (-1/20)).venda_prudente = 114000 ∧
    (calc_business_case 200000 60 2000 "Médio" (2/25) (123/2000) (3/200) (1/10)
      (-1/20)).obra_total = 39600 ∧
    (calc_business_case 200000 60 2000 "Médio" (2/25) (123/2000) (3/200) (1/10)
      (-1/20)).aquisicao = 16000 ∧
    (calc_business_case 200000 60 2000 "Médio" (2/25) (123/2000) (3/200) (1/10)
      (-1/20)).holding = 3594 ∧
    (calc_business_case 200000 60 2000 "Médio" (2/25) (123/2000) (3/200) (1/10)
      (-1/20)).investimento_total = 259194 ∧
    (calc_business_case 200000 60 2000 "Médio" (2/25) (123/2000) (3/200) (1/10)
      (-1/20)).venda_fee = 7011 ∧
    (calc_business_case 200000 60 2000 "Médio" (2/25) (123/2000) (3/200) (1/10)
      (-1/20)).lucro_liquido = -152205 ∧
    (calc_business_case 200000 60 2000 "Médio" (2/25) (123/2000) (3/200) (1/10)
      (-1/20)).margem_liquida = some (-152205/114000) ∧
    |(-152205/114000 : ℚ) - (-13352/10000)| < 1/10000 := by
  refine ⟨?_, ?_, ?_, ?_, ?_, ?_, ?_, ?_, ?_, abs_lt.mpr ⟨by norm_num, by norm_num⟩⟩ <;>
    norm_num [bc_venda_bruta, bc_venda_prudente, bc_obra_total, bc_aquisicao, bc_holding,
      bc_investimento_total, bc_venda_fee, bc_lucro_liquido, bc_margem_liquida,
      renovationCost_medio]

/-- C2 counterexample: for the business case with purchase price -100 (area 1,
sale 100 €/m², Low tier, acquisition rate 1, all other rates 0) the guard
`taxa_aquisicao = aquisicao / compra if compra > 0 else 0` zeroes the re-derived
acquisition rate, so the Base stress scenario's profit (-100) differs from the
case's own net profit (0): the Base scenario does not reproduce every
calculator output. -/
theorem stress_base_deviates :
    ((stress_test_cases (calc_business_case (-100) 1 100 "Baixo" 1 0 0 0 0) 6).head?.map
      StressScenario.lucro) ≠
      some ((calc_business_case (-100) 1 100 "Baixo" 1 0 0 0 0).lucro_liquido) := by
  rw [stress_head_def]
  rw [bc_compra, bc_venda_prudente, bc_obra_total, bc_aquisicao, bc_holding, bc_venda_fee,
    bc_lucro_liquido]
  norm_num [renovationCost_baixo]

end FlipLogic

namespace FlipLogic

/-- C5 counterexample: on a row with a present `t3` price, typology T3 is
resolved with the very same proxy label as T4+ (the source string
"Apt. T3 (proxy p/ T4+)", the spec's "T3 proxy for T4+"), not with a distinct
plain "T3" label as the claim's typology table asserts: the code maps T3 and
T4+ to the same bucket and labels both hits identically. -/
theorem t3_label_equals_t4plus_label :
    (salePriceFromRow rowFull "T3").2 = "Apt. T3 (proxy p/ T4+)" ∧
    (salePriceFromRow rowFull "T3").2 = (salePriceFromRow rowFull "T4+").2 ∧
    (salePriceFromRow rowFull "T3").2 ≠ "T3" := by
  exact ⟨rfl, rfl, by decide⟩

/-- C5 (amended): for any row lacking the `t2` price column, resolving typology
T2 returns the row's overall price with the fallback label (source string
"Total (fallback)", the spec's "Overall (fallback)"); for any row with a
present `t3` column, typology T4+ resolves to that value with the proxy label
(source string "Apt. T3 (proxy p/ T4+)", the spec's "T3 proxy for T4+") — and
typology T3 on a `t3` hit receives that same proxy label, not a distinct plain
"T3" label. -/
theorem resolver_fallback_chain (rowA rowB : Row) (v : ℚ)
    (hA : rowA.preco_m2_t2 = none) (hB : rowB.preco_m2_t3 = some v) :
    salePriceFromRow rowA "T2" = (rowA.preco_m2_total, "Total (fallback)") ∧
    salePriceFromRow rowB "T4+" = (v, "Apt. T3 (proxy p/ T4+)") ∧
    salePriceFromRow rowB "T3" = (v, "Apt. T3 (proxy p/ T4+)") := by
  refine ⟨?_, ?_, ?_⟩ <;>
    simp [salePriceFromRow, TIPOLOGY_MAP, hA, hB, Option.orElse]

/-- C5 witness: a concrete row without `t2` falls back to its overall price,
and a concrete row with `t3 = 3300` serves both T4+ and T3 with the proxy
label. -/
theorem resolver_fallback_chain_witness :
    rowNoT2.preco_m2_t2 = none ∧
    rowFull.preco_m2_t3 = some 3300 ∧
    salePriceFromRow rowNoT2 "T2" = (rowNoT2.preco_m2_total, "Total (fallback)") ∧
    salePriceFromRow rowFull "T4+" = (3300, "Apt. T3 (proxy p/ T4+)") := by
  have h := resolver_fallback_chain rowNoT2 rowFull 3300 rfl rfl
  exact ⟨rfl, rfl, h.1, h.2.1⟩

/-- C6: on any row whose typology-mapped absorption column is absent and whose
overall absorption column is also absent, `estimate_absorption_months` returns
the fixed default of 6.0 months with the no-data label (source string
"Default 6 (sem dados)"), and — being a total function into a plain pair — it
raises no error in doing so. -/
theorem absorption_defaults_to_six (row : Row) (tipologia : String)
    (hcol : ∀ c, absorcaoColMap ((TIPOLOGY_MAP tipologia).getD "Total") = some c →
      row.getAbsorcao c = none)
    (htotal : row.absorcao_total = none) :
    absorptionFromRow row tipologia = (6, "Default 6 (sem dados)") := by
  have hfb : absorptionFallback row = (6, "Default 6 (sem dados)") := by
    simp [absorptionFallback, htotal]
  simp only [absorptionFromRow]
  cases hc : absorcaoColMap ((TIPOLOGY_MAP tipologia).getD "Total") with
  | none => exact hfb
  | some c =>
      show (match row.getAbsorcao c with
        | some v => (v, c)
        | none => absorptionFallback row) = (6, "Default 6 (sem dados)")
      rw [hcol c hc]
      exact hfb

/-- C6 witness: the concrete row with every absorption column absent defaults
to 6.0 months for typology T2. -/
theorem absorption_defaults_to_six_witness :
    rowEmptyAbs.absorcao_total = none ∧
    absorptionFromRow rowEmptyAbs "T2" = (6, "Default 6 (sem dados)") := by
  refine ⟨rfl, absorption_defaults_to_six rowEmptyAbs "T2" ?_ rfl⟩
  intro c hc
  have h2 : (some "Absorcao_T2" : Option String) = some c := hc
  injection h2 with h3
  subst h3
  rfl

/-- C10: for any locality row in the table and any typology string outside the
five recognized values, neither resolver raises: the sale-price resolver
returns the row's overall price with the fallback label, and the absorption
resolver returns the overall absorption when present, else the 6.0-month
default. -/
theorem unknown_typology_falls_back (rows : List Row) (row : Row) (loc tip : String)
    (hpick : pickRow rows loc = Except.ok row)
    (htip : tip ∉ (["T0", "T1", "T2", "T3", "T4+"] : List String)) :
    get_sale_price_per_m2 rows loc tip = Except.ok (row.preco_m2_total, "Total (fallback)") ∧
    estimate_absorption_months rows loc tip = Except.ok (absorptionFallback row) := by
  have htm : TIPOLOGY_MAP tip = none := by
    simp only [List.mem_cons, List.mem_singleton, not_or] at htip
    obtain ⟨h0, h1, h2, h3, h4, _⟩ := htip
    simp [TIPOLOGY_MAP, h0, h1, h2, h3, h4]
  constructor
  · unfold get_sale_price_per_m2
    rw [hpick]
    show Except.ok (salePriceFromRow row tip) = _
    simp [salePriceFromRow, htm]
  · unfold estimate_absorption_months
    rw [hpick]
    show Except.ok (absorptionFromRow row tip) = _
    simp [absorptionFromRow, htm, absorcaoColMap]

/-- C10 witness: typology "T5" on the concrete example table resolves to the
overall price and the overall absorption fallback for locality "Lisboa". -/
theorem unknown_typology_falls_back_witness :
    pickRow [rowFull] "Lisboa" = Except.ok rowFull ∧
    ("T5" ∉ (["T0", "T1", "T2", "T3", "T4+"] : List String)) ∧
    get_sale_price_per_m2 [rowFull] "Lisboa" "T5" =
      Except.ok (rowFull.preco_m2_total, "Total (fallback)") ∧
    estimate_absorption_months [rowFull] "Lisboa" "T5" =
      Except.ok (absorptionFallback rowFull) := by
  have hpick : pickRow [rowFull] "Lisboa" = Except.ok rowFull := by
    have : (caseFold rowFull.localidade == caseFold "Lisboa") = true := by decide
    simp [pickRow, List.find?, this]
  have htip : ("T5" ∉ (["T0", "T1", "T2", "T3", "T4+"] : List String)) := by decide
  have h := unknown_typology_falls_back [rowFull] rowFull "Lisboa" "T5" hpick htip
  exact ⟨hpick, htip, h.1, h.2⟩

end FlipLogic

namespace FlipLogic

/-- C7: loader row retention.  A row with a missing locality, or whose overall
price-per-area fails numeric coercion, is dropped (`r1`); a retained row
(`r2`, producing `row`) has its locality stringified and trimmed and every
other numeric column coerced with failures becoming absent; and any row with a
present locality and a numerically-coercible overall price is retained (`r3`). -/
theorem loader_row_retention (r1 r2 r3 : List Cell) (row : Row)
    (h1 : (r1.getD 1 .empty).notna = false ∨ (r1.getD 8 .empty).toNumeric = none)
    (h2 : processRow r2 = some row)
    (h3a : (r3.getD 1 .empty).notna = true)
    (h3b : ((r3.getD 8 .empty).toNumeric).isSome = true) :
    processRow r1 = none ∧
    (processRow r3).isSome = true ∧
    row.localidade = strip (r2.getD 1 .empty).asString ∧
    (r2.getD 8 .empty).toNumeric = some row.preco_m2_total ∧
    row.preco_m2_t1 = (r2.getD 9 .empty).toNumeric ∧
    row.preco_m2_t2 = (r2.getD 10 .empty).toNumeric ∧
    row.preco_m2_t3 = (r2.getD 11 .empty).toNumeric ∧
    row.preco_m2_moradia = (r2.getD 12 .empty).toNumeric ∧
    row.absorcao_total = (r2.getD 18 .empty).toNumeric ∧
    row.absorcao_t1 = (r2.getD 19 .empty).toNumeric ∧
    row.absorcao_t2 = (r2.getD 20 .empty).toNumeric ∧
    row.absorcao_t3 = (r2.getD 21 .empty).toNumeric ∧
    row.absorcao_moradia = (r2.getD 22 .empty).toNumeric := by
  have hdrop : processRow r1 = none := by
    simp only [processRow]
    cases h1 with
    | inl h =>
        rw [h]
        simp
    | inr h =>
        rw [h]
        split <;> rfl
  have hkeep : (processRow r3).isSome = true := by
    simp only [processRow]
    rw [h3a]
    obtain ⟨p, hp⟩ := Option.isSome_iff_exists.mp h3b
    rw [hp]
    simp
  refine ⟨hdrop, hkeep, ?_⟩
  simp only [processRow] at h2
  by_cases hn : (r2.getD 1 .empty).notna = true
  · rw [hn] at h2
    simp only [if_true] at h2
    cases hp : (r2.getD 8 .empty).toNumeric with
    | none =>
        rw [hp] at h2
        exact absurd h2 (by simp)
    | some p =>
        rw [hp] at h2
        simp only [Option.some_inj] at h2
        subst h2
        exact ⟨rfl, hp ▸ rfl, rfl, rfl, rfl, rfl, rfl, rfl, rfl, rfl, rfl⟩
  · rw [Bool.not_eq_true] at hn
    rw [hn] at h2
    simp at h2

/-- C7 witness: a row with an empty locality is dropped; a concrete 23-column
row with a numeric overall price, one non-numeric and several missing columns
is retained with exactly those fields absent and the locality trimmed. -/
theorem loader_row_retention_witness :
    processRow [] = none ∧
    (processRow [Cell.str "Norte", Cell.str " Lisboa ", Cell.empty, Cell.empty, Cell.empty,
      Cell.empty, Cell.empty, Cell.empty, Cell.num 3000, Cell.num 3100, Cell.empty,
      Cell.str "x", Cell.empty, Cell.empty, Cell.empty, Cell.empty, Cell.empty, Cell.empty,
      Cell.num 4, Cell.empty, Cell.num 5, Cell.empty, Cell.empty]).isSome = true ∧
    (⟨"Lisboa", 3000, some 3100, none, none, none, some 4, none, some 5, none, none⟩ :
      Row).localidade = strip (([Cell.str "Norte", Cell.str " Lisboa ", Cell.empty, Cell.empty,
        Cell.empty, Cell.empty, Cell.empty, Cell.empty, Cell.num 3000, Cell.num 3100,
        Cell.empty, Cell.str "x", Cell.empty, Cell.empty, Cell.empty, Cell.empty, Cell.empty,
        Cell.empty, Cell.num 4, Cell.empty, Cell.num 5, Cell.empty,
        Cell.empty].getD 1 .empty).asString) := by
  have h2 : processRow [Cell.str "Norte", Cell.str " Lisboa ", Cell.empty, Cell.empty,
      Cell.empty, Cell.empty, Cell.empty, Cell.empty, Cell.num 3000, Cell.num 3100,
      Cell.empty, Cell.str "x", Cell.empty, Cell.empty, Cell.empty, Cell.empty, Cell.empty,
      Cell.empty, Cell.num 4, Cell.empty, Cell.num 5, Cell.empty, Cell.empty] =
      some (⟨"Lisboa", 3000, some 3100, none, none, none, some 4, none, some 5, none, none⟩ :
        Row) := by
    decide
  have h := loader_row_retention [] [Cell.str "Norte", Cell.str " Lisboa ", Cell.empty,
    Cell.empty, Cell.empty, Cell.empty, Cell.empty, Cell.empty, Cell.num 3000, Cell.num 3100,
    Cell.empty, Cell.str "x", Cell.empty, Cell.empty, Cell.empty, Cell.empty, Cell.empty,
    Cell.empty, Cell.num 4, Cell.empty, Cell.num 5, Cell.empty, Cell.empty]
    [Cell.str "Norte", Cell.str " Lisboa ", Cell.empty, Cell.empty, Cell.empty, Cell.empty,
    Cell.empty, Cell.empty, Cell.num 3000, Cell.num 3100, Cell.empty, Cell.str "x",
    Cell.empty, Cell.empty, Cell.empty, Cell.empty, Cell.empty, Cell.empty, Cell.num 4,
    Cell.empty, Cell.num 5, Cell.empty, Cell.empty]
    (⟨"Lisboa", 3000, some 3100, none, none, none, some 4, none, some 5, none, none⟩ : Row)
    (Or.inl rfl) h2 (by decide) (by decide)
  exact ⟨h.1, h.2.1, h.2.2.1⟩

end FlipLogic

namespace FlipLogic

/-- C8: locality lookup is case-insensitive and deterministic.  Locality
strings with equal casefoldings give identical results from both resolvers on
any table; when a matching row `r` follows a prefix of non-matching rows, the
picker returns exactly `r` (first match wins); and on a table with no
case-insensitive match, both resolvers fail with `LocalityNotFoundError`. -/
theorem locality_lookup (tableA rows pre post : List Row) (r : Row) (l1 l2 loc tip : String)
    (hcase : caseFold l1 = caseFold l2)
    (hnone : ∀ q ∈ rows, caseFold q.localidade ≠ caseFold loc)
    (hpre : ∀ q ∈ pre, caseFold q.localidade ≠ caseFold loc)
    (hr : caseFold r.localidade = caseFold loc) :
    get_sale_price_per_m2 tableA l1 tip = get_sale_price_per_m2 tableA l2 tip ∧
    estimate_absorption_months tableA l1 tip = estimate_absorption_months tableA l2 tip ∧
    pickRow (pre ++ r :: post) loc = Except.ok r ∧
    get_sale_price_per_m2 rows loc tip = Except.error FlipError.localityNotFound ∧
    estimate_absorption_months rows loc tip = Except.error FlipError.localityNotFound := by
  have hpick12 : ∀ tb : List Row, pickRow tb l1 = pickRow tb l2 := by
    intro tb
    unfold pickRow
    rw [hcase]
  have hfirst : pickRow (pre ++ r :: post) loc = Except.ok r := by
    unfold pickRow
    rw [List.find?_append]
    have hpre' : (pre.find? fun q => caseFold q.localidade == caseFold loc) = none := by
      rw [List.find?_eq_none]
      intro x hx
      simpa using hpre x hx
    have hcons : ((r :: post).find? fun q => caseFold q.localidade == caseFold loc) =
        some r :=
      List.find?_cons_of_pos _ (by simpa using hr)
    rw [hpre', hcons]
    rfl
  have hmiss : (rows.find? fun q => caseFold q.localidade == caseFold loc) = none := by
    rw [List.find?_eq_none]
    intro x hx
    simpa using hnone x hx
  have hnopick : pickRow rows loc = Except.error FlipError.localityNotFound := by
    unfold pickRow
    rw [hmiss]
  exact ⟨by unfold get_sale_price_per_m2; rw [hpick12],
    by unfold estimate_absorption_months; rw [hpick12],
    hfirst,
    by unfold get_sale_price_per_m2; rw [hnopick]; rfl,
    by unfold estimate_absorption_months; rw [hnopick]; rfl⟩

/-- C8 witness: "lisboa" and "LISBOA" resolve identically on a concrete table;
the first matching row wins past a non-matching prefix; and a table without
the locality yields `LocalityNotFoundError`. -/
theorem locality_lookup_witness :
    caseFold "lisboa" = caseFold "LISBOA" ∧
    get_sale_price_per_m2 [rowFull] "lisboa" "T2" =
      get_sale_price_per_m2 [rowFull] "LISBOA" "T2" ∧
    pickRow ([rowNoT2] ++ rowFull :: []) "Lisboa" = Except.ok rowFull ∧
    get_sale_price_per_m2 [rowNoT2] "Lisboa" "T2" =
      Except.error FlipError.localityNotFound := by
  have h := locality_lookup [rowFull] [rowNoT2] [rowNoT2] [] rowFull "lisboa" "LISBOA"
    "Lisboa" "T2" (by decide) (by decide) (by decide) (by decide)
  exact ⟨by decide, h.1, h.2.2.1, h.2.2.2.1⟩

end FlipLogic

namespace FlipLogic

/-- C1: feeding the optimal purchase price back into the business-case
calculator (same area, sale price per m², renovation tier and rates) yields a
net margin exactly equal to the target margin, whenever the denominator
`1 + acquisition_rate + holding_rate` is positive, the unclamped closed-form
solution is non-negative, and the prudent sale value is positive.  Over exact
rationals the equality is exact, which subsumes the spec's 1e-9 relative
floating-point tolerance. -/
theorem optimal_price_hits_target_margin
    (c0 A vm : ℚ) (lvl : String) (a s h ct pr m : ℚ)
    (hdenom : 0 < 1 + a + h)
    (hV : 0 < (calc_business_case c0 A vm lvl a s h ct pr).venda_prudente)
    (hP : 0 ≤ ((calc_business_case c0 A vm lvl a s h ct pr).venda_prudente * (1 - s - m) -
      (calc_business_case c0 A vm lvl a s h ct pr).obra_total * (1 + h)) / (1 + a + h)) :
    (calc_business_case
      (calc_optimal_purchase_price
        (calc_business_case c0 A vm lvl a s h ct pr).venda_prudente
        (calc_business_case c0 A vm lvl a s h ct pr).obra_total a h s m)
      A vm lvl a s h ct pr).margem_liquida = some m := by
  rw [bc_venda_prudente] at hV hP ⊢
  rw [bc_obra_total] at hP ⊢
  set V := vm * A * (1 + pr) with hVdef
  set W := renovationCost lvl * A * (1 + ct) with hWdef
  have hPval : calc_optimal_purchase_price V W a h s m =
      (V * (1 - s - m) - W * (1 + h)) / (1 + a + h) := by
    rw [opt_price_def, if_pos hdenom]
    exact max_eq_right hP
  rw [bc_margem_liquida]
  show (if 0 < V then _ else _) = _
  rw [if_pos hV, Option.some_inj, hPval]
  have hd : (1 + a + h) ≠ 0 := ne_of_gt hdenom
  have hv : V ≠ 0 := ne_of_gt hV
  field_simp
  ring

end FlipLogic

namespace FlipLogic

/-- C1 witness: at the spec's example figures (prudent sale 114000, renovation
39600, rates 8% / 1.5% / 6.15%, target 10%) the re-computed business case at
the optimal price has net margin exactly 1/10. -/
theorem optimal_price_hits_target_margin_witness :
    (0 : ℚ) < 1 + 2/25 + 3/200 ∧
    0 < (calc_business_case 200000 60 2000 "Médio" (2/25) (123/2000) (3/200) (1/10)
      (-1/20)).venda_prudente ∧
    (calc_business_case
      (calc_optimal_purchase_price
        (calc_business_case 200000 60 2000 "Médio" (2/25) (123/2000) (3/200) (1/10)
          (-1/20)).venda_prudente
        (calc_business_case 200000 60 2000 "Médio" (2/25) (123/2000) (3/200) (1/10)
          (-1/20)).obra_total (2/25) (3/200) (123/2000) (1/10))
      60 2000 "Médio" (2/25) (123/2000) (3/200) (1/10) (-1/20)).margem_liquida =
      some (1/10) := by
  refine ⟨by norm_num, by rw [bc_venda_prudente]; norm_num, ?_⟩
  exact optimal_price_hits_target_margin 200000 60 2000 "Médio" (2/25) (123/2000) (3/200)
    (1/10) (-1/20) (1/10) (by norm_num)
    (by rw [bc_venda_prudente]; norm_num)
    (by rw [bc_venda_prudente, bc_obra_total]; norm_num [renovationCost_medio])

/-- C2 (amended): the Base stress scenario reproduces the original business
case — same profit and same margin — for every calculator output whose
purchase price, purchase price plus renovation total, and prudent sale are all
positive (on those inputs the re-derived rates reconstruct the original costs;
the counterexample shows the guards break reproduction outside this domain). -/
theorem stress_base_reproduces_case
    (c A vm : ℚ) (lvl : String) (a s h ct pr am : ℚ)
    (hP : 0 < c)
    (hPW : 0 < c + (calc_business_case c A vm lvl a s h ct pr).obra_total)
    (hV : 0 < (calc_business_case c A vm lvl a s h ct pr).venda_prudente) :
    (stress_test_cases (calc_business_case c A vm lvl a s h ct pr) am).head? =
      some ⟨"Base", (calc_business_case c A vm lvl a s h ct pr).lucro_liquido,
        (calc_business_case c A vm lvl a s h ct pr).margem_liquida⟩ := by
  rw [bc_obra_total] at hPW
  rw [bc_venda_prudente] at hV
  rw [stress_head_def, bc_compra, bc_venda_prudente, bc_obra_total, bc_aquisicao,
    bc_holding, bc_venda_fee, bc_lucro_liquido, bc_margem_liquida]
  set V := vm * A * (1 + pr) with hVdef
  set W := renovationCost lvl * A * (1 + ct) with hWdef
  rw [if_pos hP, if_pos hPW, if_pos hV]
  have hc : c ≠ 0 := ne_of_gt hP
  have hcw : c + W ≠ 0 := ne_of_gt hPW
  have hv : V ≠ 0 := ne_of_gt hV
  have haq : c * (c * a / c) = c * a := by
    field_simp
  have hhold : (c + W) * ((c + W) * h / (c + W)) * 1 = (c + W) * h := by
    field_simp
  have hfee : V * (V * s / V) = V * s := by
    field_simp
  rw [haq, hhold, hfee]

/-- C2 witness: on the spec's example business case (all three quantities
positive) the Base scenario reproduces the case's profit and margin. -/
theorem stress_base_reproduces_case_witness :
    (0 : ℚ) < 200000 ∧
    (stress_test_cases
      (calc_business_case 200000 60 2000 "Médio" (2/25) (123/2000) (3/200) (1/10) (-1/20))
      6).head? =
      some ⟨"Base",
        (calc_business_case 200000 60 2000 "Médio" (2/25) (123/2000) (3/200) (1/10)
          (-1/20)).lucro_liquido,
        (calc_business_case 200000 60 2000 "Médio" (2/25) (123/2000) (3/200) (1/10)
          (-1/20)).margem_liquida⟩ := by
  refine ⟨by norm_num, ?_⟩
  exact stress_base_reproduces_case 200000 60 2000 "Médio" (2/25) (123/2000) (3/200) (1/10)
    (-1/20) 6 (by norm_num)
    (by rw [bc_obra_total]; norm_num [renovationCost_medio])
    (by rw [bc_venda_prudente]; norm_num)

end FlipLogic
